import Mathlib

/-!
Verification development for the zad_backend volunteer-evaluation service.

The definitions below are a shallow embedding of the evaluation scoring and
aggregation engine (src/evaluations.js), the automatic alert rule engine
(src/alerts.js, POST /check-automatic) and the consistency analytics helper
(calculateConsistency in the reports module).  JavaScript numbers are
modelled as exact rationals; database rows are modelled as Lean structures
and tables as lists of rows.  SQL queries are translated clause by clause,
keeping the (sometimes surprising) operator precedence of the source.
-/

namespace Zad

/-- One row of the evaluation_criteria table.  Only the columns the scoring
and alert logic reads are modelled.  The choices column (a JSON object
mapping a choice label to a numeric score) is modelled as an association
list; JS object keys are unique, so lookup takes the first match. -/
structure Criterion where
  id : Nat
  nameAr : String
  dataType : String
  maxScore : ℚ
  weight : ℚ
  appliesToRole : String
  isActive : Bool
  choices : List (String × ℚ)
  deriving DecidableEq

/-- One entry of the criteria_scores request array.  score_value is a raw
JSON value: the outer Option is none when the field is undefined or null,
the inner Option is none when parseFloat of the value yields NaN
(non-numeric input) and some q when it parses to the number q.
choice_value is none when absent; the empty string is kept and handled by
JS truthiness below.  boolean_value is the raw optional boolean. -/
structure CriteriaScore where
  criteriaId : Nat
  scoreValue : Option (Option ℚ)
  choiceValue : Option String
  booleanValue : Option Bool
  deriving DecidableEq

/-- JS truthiness of an optional string: undefined, null and the empty
string are falsy. -/
def strTruthy : Option String → Bool
  | none => false
  | some s => decide (s ≠ "")

/-- JS expression v || d for an optional number v: undefined, null, NaN
and 0 are falsy, so they all fall through to the default d. -/
def jsNumOr (v : Option ℚ) (d : ℚ) : ℚ :=
  match v with
  | none => d
  | some x => if x = 0 then d else x

/-- Lookup of choices[label] on the choices JSON object. -/
def lookupChoice (table : List (String × ℚ)) (lbl : String) : Option ℚ :=
  (table.find? (fun p => p.1 == lbl)).map (fun p => p.2)

/-- Resolution of one submitted value against one criterion: the finalScore
computation of the create handler (src/evaluations.js lines 370-379), which
is repeated verbatim in the update handler (lines 594-602).
numeric: Math.max(0, Math.min(parseFloat(score_value) || 0, max_score)) when
score_value is neither undefined nor null; boolean: max_score exactly when
boolean_value === true; choice (when choice_value is truthy):
choices[choice_value] || max_score * 0.8; everything else leaves the
initial value 0. -/
def finalScore (c : Criterion) (s : CriteriaScore) : ℚ :=
  if c.dataType = "numeric" ∧ s.scoreValue.isSome then
    max 0 (min ((s.scoreValue.getD none).getD 0) c.maxScore)
  else if c.dataType = "boolean" then
    (if s.booleanValue = some true then c.maxScore else 0)
  else if c.dataType = "choice" ∧ strTruthy s.choiceValue then
    jsNumOr (lookupChoice c.choices (s.choiceValue.getD "")) (c.maxScore * (8 / 10))
  else 0

/-- The criteria applicable to a volunteer: WHERE is_active = true AND
(applies_to_role = role OR applies_to_role = all). -/
def availableCriteria (cs : List Criterion) (role : String) : List Criterion :=
  cs.filter (fun c => decide (c.isActive = true ∧ (c.appliesToRole = role ∨ c.appliesToRole = "all")))

/-- availableCriteria.find(c => c.id === criteria_id). -/
def findCriterion (avail : List Criterion) (cid : Nat) : Option Criterion :=
  avail.find? (fun c => decide (c.id = cid))

/-- parseFloat(criterion.weight || 1): a zero (or missing) weight is falsy
in JS and is replaced by 1. -/
def weightEff (c : Criterion) : ℚ :=
  if c.weight = 0 then 1 else c.weight

/-- parseFloat(criterion.max_score || 10), used only in the weighted
maximum: a zero max_score is falsy and is replaced by 10. -/
def maxScoreEff (c : Criterion) : ℚ :=
  if c.maxScore = 0 then 10 else c.maxScore

/-- The accumulation loop over criteria_scores (src/evaluations.js lines
359-396; the same block appears in the update handler, lines 585-615).
Returns (inserted details as (criteria_id, finalScore) pairs, totalScore,
maxPossibleScore).  Entries whose criteria_id has no match in the
applicable criteria are skipped (continue).  The source accumulates the
two sums left to right; this recursion produces the same rational sums by
associativity and commutativity of addition, and the detail list in the
same order. -/
def scoreLoop (avail : List Criterion) : List CriteriaScore → List (Nat × ℚ) × ℚ × ℚ
  | [] => ([], 0, 0)
  | s :: rest =>
    match findCriterion avail s.criteriaId with
    | none => scoreLoop avail rest
    | some c =>
      ((s.criteriaId, finalScore c s) :: (scoreLoop avail rest).1,
        finalScore c s * weightEff c + (scoreLoop avail rest).2.1,
        maxScoreEff c * weightEff c + (scoreLoop avail rest).2.2)

/-- The evaluation row fields written back by the handler after the loop. -/
structure EvalRow where
  details : List (Nat × ℚ)
  totalScore : ℚ
  maxPossibleScore : ℚ
  percentage : ℚ
  deriving DecidableEq

/-- The full scoring pass of one evaluation: filter the criteria to the
volunteer role, run the accumulation loop, then store
percentage = maxPossibleScore > 0
  ? Math.round((totalScore / maxPossibleScore) * 100 * 100) / 100 : 0.
JS Math.round is floor(x + 1/2), which is Mathlib round on ℚ. -/
def aggregateEvaluation (cs : List Criterion) (role : String) (ss : List CriteriaScore) : EvalRow :=
  { details := (scoreLoop (availableCriteria cs role) ss).1
    totalScore := (scoreLoop (availableCriteria cs role) ss).2.1
    maxPossibleScore := (scoreLoop (availableCriteria cs role) ss).2.2
    percentage :=
      if 0 < (scoreLoop (availableCriteria cs role) ss).2.2 then
        ((round ((scoreLoop (availableCriteria cs role) ss).2.1 /
            (scoreLoop (availableCriteria cs role) ss).2.2 * 100 * 100) : ℤ) : ℚ) / 100
      else 0 }

/-- Rounding to 2 decimal places as the spec words it: round2(q) rounds
q to the nearest hundredth, halves up, exactly JS
Math.round(q * 100) / 100. -/
def round2 (q : ℚ) : ℚ :=
  ((round (q * 100) : ℤ) : ℚ) / 100

/-- A numeric criterion with max_score 10 and weight 1. -/
def cNum : Criterion := ⟨0, "n", "numeric", 10, 1, "all", true, []⟩

/-- A submitted numeric score of 5 for criterion 0. -/
def sFive : CriteriaScore := ⟨0, some (some 5), none, none⟩

/-- A submitted numeric score of 7 for criterion 0. -/
def sSeven : CriteriaScore := ⟨0, some (some 7), none, none⟩

/-- A submitted score for a criterion id that does not exist. -/
def sUnknown : CriteriaScore := ⟨99, some (some 4), none, none⟩

/-- A choice criterion whose table maps the label bad to the score 0. -/
def cChoiceZero : Criterion := ⟨1, "c", "choice", 10, 1, "all", true, [("bad", 0)]⟩

/-- A submitted choice score selecting the label bad on criterion 1. -/
def sBadZero : CriteriaScore := ⟨1, none, some "bad", none⟩

/-- The numeric example criterion of the spec: max_score 10, weight 2. -/
def cNumTwo : Criterion := ⟨2, "n", "numeric", 10, 2, "all", true, []⟩

/-- A submitted numeric score of 12 (over range) for criterion 2. -/
def sTwelve : CriteriaScore := ⟨2, some (some 12), none, none⟩

/-- The choice example criterion of the spec: table maps excellent to 10. -/
def cChoiceEx : Criterion := ⟨3, "c", "choice", 10, 1, "all", true, [("excellent", 10)]⟩

/-- A submitted choice score with the label good, absent from the table. -/
def sGood : CriteriaScore := ⟨3, none, some "good", none⟩

/-- Unfolding of finalScore for a numeric criterion: missing input gives 0,
present input gives the clamp of the parsed-or-0 value. -/
lemma finalScore_numeric (c : Criterion) (s : CriteriaScore) (hdt : c.dataType = "numeric") :
    finalScore c s = match s.scoreValue with
      | none => 0
      | some p => max 0 (min (p.getD 0) c.maxScore) := by
  cases hs : s.scoreValue <;> simp [finalScore, hdt, hs]

/-- Claim C1: the stored percentage of an aggregated evaluation equals
round2(totalScore / maxPossibleScore * 100) when maxPossibleScore > 0 and
equals 0 otherwise. -/
theorem evaluation_percentage_formula (cs : List Criterion) (role : String)
    (ss : List CriteriaScore) :
    (aggregateEvaluation cs role ss).percentage =
      if 0 < (aggregateEvaluation cs role ss).maxPossibleScore then
        round2 ((aggregateEvaluation cs role ss).totalScore /
          (aggregateEvaluation cs role ss).maxPossibleScore * 100)
      else 0 := rfl

/-- Claim C2 counterexample: for the batch [5, 7] on the same numeric
criterion (max 10, weight 1), the source accumulates both entries
(totalScore 12, maxPossibleScore 20, percentage 60), which differs from the
batch with the earlier duplicate removed (totalScore 7, maxPossibleScore
10, percentage 70) in every component, so last-write-wins fails. -/
theorem duplicate_not_last_write_wins :
    ¬ ((aggregateEvaluation [cNum] ("member") [sFive, sSeven]).totalScore =
          (aggregateEvaluation [cNum] ("member") [sSeven]).totalScore ∧
        (aggregateEvaluation [cNum] ("member") [sFive, sSeven]).maxPossibleScore =
          (aggregateEvaluation [cNum] ("member") [sSeven]).maxPossibleScore ∧
        (aggregateEvaluation [cNum] ("member") [sFive, sSeven]).percentage =
          (aggregateEvaluation [cNum] ("member") [sSeven]).percentage) := by
  intro h
  have h1 := h.1
  norm_num [aggregateEvaluation, scoreLoop, availableCriteria, findCriterion, finalScore,
    weightEff, maxScoreEff, cNum, sFive, sSeven] at h1

/-- Totals and details of the accumulation loop are additive over
concatenation of batches. -/
lemma scoreLoop_append (avail : List Criterion) (l1 l2 : List CriteriaScore) :
    scoreLoop avail (l1 ++ l2) =
      ((scoreLoop avail l1).1 ++ (scoreLoop avail l2).1,
        (scoreLoop avail l1).2.1 + (scoreLoop avail l2).2.1,
        (scoreLoop avail l1).2.2 + (scoreLoop avail l2).2.2) := by
  induction l1 with
  | nil => simp [scoreLoop]
  | cons s rest ih =>
    cases hf : findCriterion avail s.criteriaId with
    | none => simpa [scoreLoop, hf] using ih
    | some c => simp [scoreLoop, hf, ih, add_assoc]

/-- Claim C2 amended: aggregation is additive over batch concatenation, so
a duplicate entry for an already-seen criterion id adds its weighted score
and weighted maximum on top of the earlier accumulation (it does not
overwrite it). -/
theorem batch_accumulation_additive (cs : List Criterion) (role : String)
    (l1 l2 : List CriteriaScore) :
    (aggregateEvaluation cs role (l1 ++ l2)).totalScore =
      (aggregateEvaluation cs role l1).totalScore +
        (aggregateEvaluation cs role l2).totalScore ∧
    (aggregateEvaluation cs role (l1 ++ l2)).maxPossibleScore =
      (aggregateEvaluation cs role l1).maxPossibleScore +
        (aggregateEvaluation cs role l2).maxPossibleScore ∧
    (aggregateEvaluation cs role (l1 ++ l2)).details =
      (aggregateEvaluation cs role l1).details ++
        (aggregateEvaluation cs role l2).details := by
  refine ⟨?_, ?_, ?_⟩ <;> simp [aggregateEvaluation, scoreLoop_append]

/-- Claim C3: for a numeric criterion with a nonnegative max_score the
resolved score is the clamp of the parsed-or-0 input into [0, max_score];
it is 0 for a missing (undefined or null) input and 0 for a present but
non-numeric input, and always lies within [0, max_score]. -/
theorem numeric_score_clamped (c : Criterion) (s : CriteriaScore)
    (hdt : c.dataType = "numeric") (hms : 0 ≤ c.maxScore) :
    (0 ≤ finalScore c s ∧ finalScore c s ≤ c.maxScore) ∧
    (∀ p, s.scoreValue = some p → finalScore c s = max 0 (min (p.getD 0) c.maxScore)) ∧
    (s.scoreValue = none → finalScore c s = 0) ∧
    (s.scoreValue = some none → finalScore c s = 0) := by
  rw [finalScore_numeric c s hdt]
  cases hs : s.scoreValue with
  | none =>
    exact ⟨⟨le_refl 0, hms⟩, fun p hp => by simp at hp, fun _ => rfl, fun h => by simp at h⟩
  | some p =>
    refine ⟨⟨le_max_left 0 _, max_le hms (min_le_right _ _)⟩,
      fun q hq => by cases hq; rfl, fun h => by simp at h, fun h => ?_⟩
    have : p = none := by simpa using h
    subst this
    simp [hms, min_eq_left]

/-- Claim C3 witness: the spec example, raw input 12 on a numeric criterion
with max_score 10 resolves to the clamp (namely 10) and is within range. -/
theorem numeric_score_clamped_witness :
    (cNumTwo.dataType = "numeric" ∧ 0 ≤ cNumTwo.maxScore) ∧
    ((0 ≤ finalScore cNumTwo sTwelve ∧ finalScore cNumTwo sTwelve ≤ cNumTwo.maxScore) ∧
      (∀ p, sTwelve.scoreValue = some p →
        finalScore cNumTwo sTwelve = max 0 (min (p.getD 0) cNumTwo.maxScore)) ∧
      (sTwelve.scoreValue = none → finalScore cNumTwo sTwelve = 0) ∧
      (sTwelve.scoreValue = some none → finalScore cNumTwo sTwelve = 0)) :=
  ⟨⟨rfl, by decide⟩, numeric_score_clamped cNumTwo sTwelve rfl (by decide)⟩

/-- Claim C4 counterexample: a choice criterion whose table maps the
submitted label bad to the value 0 resolves to max_score * 0.8 = 8, not to
the table value 0, because the JS expression choices[v] || max * 0.8
treats the stored 0 as falsy. -/
theorem choice_zero_value_counterexample :
    cChoiceZero.dataType = "choice" ∧ sBadZero.choiceValue = some "bad" ∧
    lookupChoice cChoiceZero.choices ("bad") = some 0 ∧
    finalScore cChoiceZero sBadZero ≠ 0 ∧
    finalScore cChoiceZero sBadZero = cChoiceZero.maxScore * (8 / 10) := by
  refine ⟨rfl, rfl, by decide, ?_, ?_⟩ <;>
    norm_num [finalScore, lookupChoice, cChoiceZero, sBadZero, strTruthy, jsNumOr] <;> decide

/-- Claim C4 amended: for a choice criterion and a truthy submitted label,
the resolved score equals the choice-value-table entry when that entry
exists and is nonzero, and equals max_score * 0.8 both when the label is
absent from the table and when its table entry is the (falsy) value 0. -/
theorem choice_score_resolution (c : Criterion) (s : CriteriaScore) (lbl : String)
    (hdt : c.dataType = "choice") (hl : s.choiceValue = some lbl) (hne : lbl ≠ "") :
    (∀ x, lookupChoice c.choices lbl = some x → x ≠ 0 → finalScore c s = x) ∧
    ((lookupChoice c.choices lbl = none ∨ lookupChoice c.choices lbl = some 0) →
      finalScore c s = c.maxScore * (8 / 10)) := by
  have hfs : finalScore c s = jsNumOr (lookupChoice c.choices lbl) (c.maxScore * (8 / 10)) := by
    simp [finalScore, hdt, hl, strTruthy, hne]
  constructor
  · intro x hx hx0
    rw [hfs, hx]
    simp [jsNumOr, hx0]
  · rintro (hx | hx) <;> rw [hfs, hx] <;> simp [jsNumOr]

/-- Claim C4 witness: the spec example, table mapping excellent to 10 and
submitted label good (absent from the table), resolves to
max_score * 0.8. -/
theorem choice_score_resolution_witness :
    (cChoiceEx.dataType = "choice" ∧ sGood.choiceValue = some "good" ∧ ("good" : String) ≠ "" ∧
      lookupChoice cChoiceEx.choices ("good") = none) ∧
    finalScore cChoiceEx sGood = cChoiceEx.maxScore * (8 / 10) :=
  ⟨⟨rfl, rfl, by decide, by decide⟩,
    (choice_score_resolution cChoiceEx sGood ("good") rfl rfl (by decide)).2
      (Or.inl (by decide))⟩

/-- The accumulation loop ignores an entry whose criterion id has no match
among the applicable criteria. -/
lemma scoreLoop_skip (avail : List Criterion) (l1 l2 : List CriteriaScore)
    (s : CriteriaScore) (h : findCriterion avail s.criteriaId = none) :
    scoreLoop avail (l1 ++ s :: l2) = scoreLoop avail (l1 ++ l2) := by
  induction l1 with
  | nil => simp [scoreLoop, h]
  | cons t rest ih => cases hf : findCriterion avail t.criteriaId <;> simp [scoreLoop, hf, ih]

/-- Claim C9: a submitted entry whose criterion id matches no active
criterion applicable to the volunteer role is skipped entirely: the
evaluation row (details, totalScore, maxPossibleScore and percentage) is
the same as if the entry had not been submitted, and the other entries of
the batch are processed unchanged. -/
theorem unknown_criterion_skipped (cs : List Criterion) (role : String)
    (l1 l2 : List CriteriaScore) (s : CriteriaScore)
    (h : findCriterion (availableCriteria cs role) s.criteriaId = none) :
    aggregateEvaluation cs role (l1 ++ s :: l2) = aggregateEvaluation cs role (l1 ++ l2) := by
  simp [aggregateEvaluation, scoreLoop_skip (availableCriteria cs role) l1 l2 s h]

/-- Claim C9 witness: an entry for the nonexistent criterion id 99 placed
between two known entries changes nothing. -/
theorem unknown_criterion_skipped_witness :
    findCriterion (availableCriteria [cNum] ("member")) sUnknown.criteriaId = none ∧
    aggregateEvaluation [cNum] ("member") ([sFive] ++ sUnknown :: [sSeven]) =
      aggregateEvaluation [cNum] ("member") ([sFive] ++ [sSeven]) :=
  ⟨by decide, unknown_criterion_skipped [cNum] ("member") [sFive] [sSeven] sUnknown (by decide)⟩

/-- One row of the volunteers table (only the columns the core reads). -/
structure Volunteer where
  id : Nat
  roleType : String
  isActive : Bool
  deriving DecidableEq

/-- One row of the evaluations table as the alert queries read it. -/
structure Evaluation where
  id : Nat
  volunteerId : Nat
  month : ℤ
  year : ℤ
  percentage : ℚ
  status : String
  isFrozen : Bool
  deriving DecidableEq

/-- One row of the evaluation_details table as the alert queries read it.
score_value is NULL when the stored value is NULL. -/
structure DetailRow where
  evaluationId : Nat
  criteriaId : Nat
  scoreValue : Option ℚ
  deriving DecidableEq

/-- One row of the freeze_records table (only the columns the cap check
reads). -/
structure FreezeRecord where
  volunteerId : Nat
  freezeYear : ℤ
  isActive : Bool
  deriving DecidableEq

/-- One row of the alert_records table.  trigger_condition is the JSON
snapshot {type, months, threshold}; its months and threshold fields are
modelled, the constant type tag is not.  Rows inserted by the engine leave
is_resolved at its schema default false. -/
structure AlertRecord where
  volunteerId : Nat
  alertType : String
  severity : String
  triggerMonths : Nat
  triggerThreshold : ℚ
  isResolved : Bool
  deriving DecidableEq

/-- The persistent store: one list per table the core touches. -/
structure Db where
  volunteers : List Volunteer
  evaluations : List Evaluation
  details : List DetailRow
  criteria : List Criterion
  freezeRecords : List FreezeRecord
  deriving DecidableEq

/-- Substring test on lists of characters. -/
def hasSubAux (pat : List Char) : List Char → Bool
  | [] => pat.isEmpty
  | c :: cs => pat.isPrefixOf (c :: cs) || hasSubAux pat cs

/-- SQL s ILIKE pattern for a pattern of the shape percent-text-percent:
true when the text occurs inside s.  The Arabic patterns used by the
source contain no letters with case, so ILIKE is plain containment. -/
def containsSub (s pat : String) : Bool :=
  hasSubAux pat.toList s.toList

/-- The WHERE clause of the weak-performance CTE (src/alerts.js lines
440-442): percentage < 60 AND status = approved AND evaluation_year >=
EXTRACT(YEAR FROM CURRENT_DATE) - 1.  today is the (year, month) pair of
CURRENT_DATE. -/
def weakQualifies (today : ℤ × ℤ) (e : Evaluation) : Bool :=
  decide (e.percentage < 60 ∧ e.status = "approved" ∧ today.1 - 1 ≤ e.year)

/-- The rows grouped by the weak-performance CTE, one volunteer id per
qualifying evaluation row; COUNT(*) per volunteer is the count in this
list. -/
def weakRows (today : ℤ × ℤ) (db : Db) : List Nat :=
  (db.evaluations.filter (weakQualifies today)).map (fun e => e.volunteerId)

/-- COUNT(*) of the weak-performance CTE group of one volunteer. -/
def weakCount (today : ℤ × ℤ) (db : Db) (v : Nat) : Nat :=
  (weakRows today db).count v

/-- EXISTS of an unresolved alert of the given type for the volunteer. -/
def hasUnresolved (alerts : List AlertRecord) (v : Nat) (ty : String) : Bool :=
  alerts.any (fun a => decide (a.volunteerId = v ∧ a.alertType = ty ∧ a.isResolved = false))

/-- The INNER JOIN volunteers of both alert queries. -/
def volunteerExists (db : Db) (v : Nat) : Bool :=
  db.volunteers.any (fun w => decide (w.id = v))

/-- Shared shape of both alert rules: group the qualifying rows by
volunteer id, keep the groups with at least minC rows that pass the keep
filter and have no unresolved alert of the rule type, and insert one new
alert per kept group carrying the group count in trigger_condition. -/
def emitFromRows (rows : List Nat) (minC : Nat) (keep : Nat → Bool)
    (alerts : List AlertRecord) (ty sev : String) (thr : ℚ) : List AlertRecord :=
  ((rows.dedup).filter
      (fun v => decide (minC ≤ rows.count v) && keep v && ! hasUnresolved alerts v ty)).map
    (fun v => ⟨v, ty, sev, rows.count v, thr, false⟩)

/-- The weak-performance rule (src/alerts.js lines 430-481): HAVING
COUNT(*) >= 3, INNER JOIN volunteers, NOT EXISTS an unresolved
weak_performance alert; each emitted alert has severity high and
trigger_condition months = COUNT(*), threshold = 60. -/
def weakAlerts (today : ℤ × ℤ) (db : Db) (alerts : List AlertRecord) : List AlertRecord :=
  emitFromRows (weakRows today db) 3 (volunteerExists db) alerts
    ("weak_performance") ("high") 60

/-- score_value IS NULL OR score_value < 3. -/
def scoreLow : Option ℚ → Bool
  | none => true
  | some s => decide (s < 3)

/-- The WHERE clause of the non-interaction CTE (src/alerts.js lines
494-499), translated with the precedence SQL gives it: AND binds tighter
than OR, so the clause is
name_ar ILIKE tafaul-pattern OR (name_ar ILIKE group-pattern AND
(score_value IS NULL OR score_value < 3) AND status = approved AND
evaluation_year = current year AND evaluation_month >= current month - 2
AND is_frozen = false); every filter after the OR applies only to the
second pattern. -/
def niWhere (today : ℤ × ℤ) (e : Evaluation) (ed : DetailRow) (ec : Criterion) : Bool :=
  containsSub ec.nameAr ("تفاعل") ||
    (containsSub ec.nameAr ("جروب") && scoreLow ed.scoreValue &&
      decide (e.status = "approved") && decide (e.year = today.1) &&
      decide (today.2 - 2 ≤ e.month) && decide (e.isFrozen = false))

/-- The rows grouped by the non-interaction CTE: one volunteer id per
joined (evaluation, detail, criterion, volunteer) combination passing the
WHERE clause; the joins are on the foreign keys of the SELECT. -/
def niRows (today : ℤ × ℤ) (db : Db) : List Nat :=
  db.evaluations.flatMap (fun e =>
    db.details.flatMap (fun ed =>
      db.criteria.flatMap (fun ec =>
        db.volunteers.flatMap (fun v =>
          if ed.evaluationId = e.id ∧ ec.id = ed.criteriaId ∧ v.id = e.volunteerId ∧
              niWhere today e ed ec = true
          then [e.volunteerId] else []))))

/-- COUNT(*) of the non-interaction CTE group of one volunteer. -/
def niCount (today : ℤ × ℤ) (db : Db) (v : Nat) : Nat :=
  (niRows today db).count v

/-- The non-interaction rule (src/alerts.js lines 484-535): HAVING
COUNT(*) >= 2, NOT EXISTS an unresolved no_interaction alert; each emitted
alert has severity medium and trigger_condition months = COUNT(*),
threshold = 3. -/
def niAlerts (today : ℤ × ℤ) (db : Db) (alerts : List AlertRecord) : List AlertRecord :=
  emitFromRows (niRows today db) 2 (fun _ => true) alerts
    ("no_interaction") ("medium") 3

/-- POST /api/alerts/check-automatic: run the weak-performance rule
against the current alert_records, insert its alerts, then run the
non-interaction rule against the grown table and insert its alerts.
Returns (newAlerts, the alert_records table after the run). -/
def checkAutomatic (today : ℤ × ℤ) (db : Db) (alerts : List AlertRecord) :
    List AlertRecord × List AlertRecord :=
  ((weakAlerts today db alerts ++ niAlerts today db (alerts ++ weakAlerts today db alerts)),
    (alerts ++ weakAlerts today db alerts) ++
      niAlerts today db (alerts ++ weakAlerts today db alerts))

/-- Index of a calendar month on the integer month axis. -/
def monthIndex (y m : ℤ) : ℤ := 12 * y + m

/-- Month (y, m) lies within the trailing n months of today: not in the
future and strictly less than n months before today.  Written from the
claim wording (trailing 12 months, trailing 2 months), for comparison with
the windows the source actually uses. -/
def withinTrailing (n : ℤ) (today : ℤ × ℤ) (y m : ℤ) : Bool :=
  decide (monthIndex y m ≤ monthIndex today.1 today.2 ∧
    monthIndex today.1 today.2 - monthIndex y m < n)

/-- Count of approved evaluations of a volunteer with percentage < 60
within the trailing 12 months, written from the claim wording of C5. -/
def specWeakCount (today : ℤ × ℤ) (db : Db) (v : Nat) : Nat :=
  ((db.evaluations.filter (fun e => decide (e.percentage < 60 ∧ e.status = "approved" ∧
      withinTrailing 12 today e.year e.month = true))).map (fun e => e.volunteerId)).count v

/-- Qualifying entry of the non-interaction rule as claim C6 words it:
approved, not frozen, within the trailing 2 months, on an
interaction-labeled criterion, score NULL or < 3. -/
def specNiOk (today : ℤ × ℤ) (e : Evaluation) (ed : DetailRow) (ec : Criterion) : Bool :=
  decide (e.status = "approved" ∧ e.isFrozen = false ∧
    withinTrailing 2 today e.year e.month = true ∧
    (containsSub ec.nameAr ("تفاعل") = true ∨ containsSub ec.nameAr ("جروب") = true) ∧
    scoreLow ed.scoreValue = true)

/-- Count of qualifying entries of a volunteer under the claim C6
wording. -/
def specNiCount (today : ℤ × ℤ) (db : Db) (v : Nat) : Nat :=
  (db.evaluations.flatMap (fun e =>
    db.details.flatMap (fun ed =>
      db.criteria.flatMap (fun ec =>
        if ed.evaluationId = e.id ∧ ec.id = ed.criteriaId ∧ specNiOk today e ed ec = true
        then [e.volunteerId] else [])))).count v

/-- Number of unresolved alerts of one (volunteer, type) pair. -/
def unresolvedCount (alerts : List AlertRecord) (v : Nat) (ty : String) : Nat :=
  (alerts.filter
    (fun a => decide (a.volunteerId = v ∧ a.alertType = ty ∧ a.isResolved = false))).length

/-- The invariant of the data model: at most one unresolved alert per
(volunteer_id, alert_type). -/
def AtMostOneUnresolved (alerts : List AlertRecord) : Prop :=
  ∀ v ty, unresolvedCount alerts v ty ≤ 1

/-- Membership in the alerts emitted by one rule run. -/
lemma mem_emitFromRows {rows : List Nat} {minC : Nat} {keep : Nat → Bool}
    {alerts : List AlertRecord} {ty sev : String} {thr : ℚ} {a : AlertRecord} :
    a ∈ emitFromRows rows minC keep alerts ty sev thr ↔
      ∃ v, v ∈ rows ∧ minC ≤ rows.count v ∧ keep v = true ∧
        hasUnresolved alerts v ty = false ∧ a = ⟨v, ty, sev, rows.count v, thr, false⟩ := by
  constructor
  · intro h
    rw [emitFromRows, List.mem_map] at h
    obtain ⟨v, hv, rfl⟩ := h
    rw [List.mem_filter] at hv
    obtain ⟨hvd, hcond⟩ := hv
    simp only [Bool.and_eq_true, Bool.not_eq_true', decide_eq_true_eq] at hcond
    exact ⟨v, List.mem_dedup.mp hvd, hcond.1.1, hcond.1.2, hcond.2, rfl⟩
  · rintro ⟨v, hvr, hc, hk, hu, rfl⟩
    rw [emitFromRows, List.mem_map]
    refine ⟨v, ?_, rfl⟩
    rw [List.mem_filter]
    exact ⟨List.mem_dedup.mpr hvr, by simp [hc, hk, hu]⟩

/-- EXISTS over a grown table splits over the two parts. -/
lemma hasUnresolved_append (l1 l2 : List AlertRecord) (v : Nat) (ty : String) :
    hasUnresolved (l1 ++ l2) v ty = (hasUnresolved l1 v ty || hasUnresolved l2 v ty) := by
  simp [hasUnresolved, List.any_append]

/-- Unresolved-alert counts add over a grown table. -/
lemma unresolvedCount_append (l1 l2 : List AlertRecord) (v : Nat) (ty : String) :
    unresolvedCount (l1 ++ l2) v ty = unresolvedCount l1 v ty + unresolvedCount l2 v ty := by
  simp [unresolvedCount]

/-- Absence of an unresolved alert is a zero unresolved count. -/
lemma hasUnresolved_eq_false_iff (l : List AlertRecord) (v : Nat) (ty : String) :
    hasUnresolved l v ty = false ↔ unresolvedCount l v ty = 0 := by
  rw [hasUnresolved, unresolvedCount, List.any_eq_false, List.length_eq_zero,
    List.filter_eq_nil_iff]

/-- After one rule run, every volunteer whose group satisfies the rule has
an unresolved alert of the rule type: either it already existed, or the
run just inserted one. -/
lemma emit_covers (rows : List Nat) (minC : Nat) (keep : Nat → Bool)
    (alerts : List AlertRecord) (ty sev : String) (thr : ℚ) (v : Nat)
    (hm : v ∈ rows) (hc : minC ≤ rows.count v) (hk : keep v = true) :
    hasUnresolved (alerts ++ emitFromRows rows minC keep alerts ty sev thr) v ty = true := by
  rw [hasUnresolved_append, Bool.or_eq_true]
  cases hb : hasUnresolved alerts v ty with
  | true => exact Or.inl rfl
  | false =>
    refine Or.inr ?_
    rw [hasUnresolved, List.any_eq_true]
    exact ⟨_, mem_emitFromRows.mpr ⟨v, hm, hc, hk, hb, rfl⟩, by simp⟩

/-- A rule run against a table that already covers every satisfying group
inserts nothing. -/
lemma emit_nil_of_covered (rows : List Nat) (minC : Nat) (keep : Nat → Bool)
    (s : List AlertRecord) (ty sev : String) (thr : ℚ)
    (h : ∀ v, v ∈ rows → minC ≤ rows.count v → keep v = true →
      hasUnresolved s v ty = true) :
    emitFromRows rows minC keep s ty sev thr = [] := by
  rw [emitFromRows, List.map_eq_nil_iff, List.filter_eq_nil_iff]
  intro v hvd
  by_cases hc : minC ≤ rows.count v
  · by_cases hk : keep v = true
    · simp [hc, hk, h v (List.mem_dedup.mp hvd) hc hk]
    · simp [hk]
  · simp [hc]

/-- A positive unresolved count among the alerts of one rule run pins the
type down to the rule type and means the run found no prior unresolved
alert for that volunteer. -/
lemma uc_emit_pos (rows : List Nat) (minC : Nat) (keep : Nat → Bool)
    (al : List AlertRecord) (ty sev : String) (thr : ℚ) (v : Nat) (ty' : String)
    (h : 0 < unresolvedCount (emitFromRows rows minC keep al ty sev thr) v ty') :
    ty' = ty ∧ hasUnresolved al v ty = false := by
  rw [unresolvedCount] at h
  obtain ⟨a, ha⟩ := List.exists_mem_of_length_pos h
  rw [List.mem_filter] at ha
  obtain ⟨hae, hap⟩ := ha
  obtain ⟨v', _, _, _, hu, rfl⟩ := mem_emitFromRows.mp hae
  obtain ⟨hv', hty, -⟩ := of_decide_eq_true hap
  exact ⟨hty.symm, hv' ▸ hu⟩

/-- An unresolved count of a type other than the rule type is zero among
the alerts of one rule run. -/
lemma uc_emit_ne (rows : List Nat) (minC : Nat) (keep : Nat → Bool)
    (al : List AlertRecord) (ty sev : String) (thr : ℚ) (v : Nat) (ty' : String)
    (h : ty' ≠ ty) :
    unresolvedCount (emitFromRows rows minC keep al ty sev thr) v ty' = 0 := by
  by_contra hne
  exact h (uc_emit_pos rows minC keep al ty sev thr v ty' (Nat.pos_of_ne_zero hne)).1

/-- A filtered map over a duplicate-free list of volunteer ids keeps at
most one element once the filter pins the volunteer id. -/
lemma length_filter_map_le_one (l : List Nat) (hl : l.Nodup) (mk : Nat → AlertRecord)
    (hmk : ∀ u, (mk u).volunteerId = u) (p : AlertRecord → Bool) (v : Nat)
    (hp : ∀ a, p a = true → a.volunteerId = v) :
    ((l.map mk).filter p).length ≤ 1 := by
  induction l with
  | nil => simp
  | cons u rest ih =>
    rw [List.map_cons, List.filter_cons]
    rcases List.nodup_cons.mp hl with ⟨hnm, hnd⟩
    by_cases hpu : p (mk u) = true
    · rw [if_pos hpu]
      have hu : u = v := by have h1 := hp _ hpu; rwa [hmk] at h1
      have hrest : (rest.map mk).filter p = [] := by
        rw [List.filter_eq_nil_iff]
        intro a ha hpa
        rw [List.mem_map] at ha
        obtain ⟨u', hu', rfl⟩ := ha
        have h2 : u' = v := by have h3 := hp _ hpa; rwa [hmk] at h3
        exact hnm ((h2.trans hu.symm) ▸ hu')
      simp [hrest]
    · rw [if_neg hpu]
      exact ih hnd

/-- One rule run inserts at most one alert per volunteer, so its own
unresolved count for any pair is at most one. -/
lemma uc_emit_le_one (rows : List Nat) (minC : Nat) (keep : Nat → Bool)
    (al : List AlertRecord) (ty sev : String) (thr : ℚ) (v : Nat) (ty' : String) :
    unresolvedCount (emitFromRows rows minC keep al ty sev thr) v ty' ≤ 1 := by
  rw [unresolvedCount, emitFromRows]
  refine length_filter_map_le_one _ ?_ _ ?_ _ v ?_
  · exact (List.nodup_dedup rows).filter _
  · intro u
    rfl
  · intro a hpa
    exact (of_decide_eq_true hpa).1

/-- CURRENT_DATE of December 2026. -/
def todayDec : ℤ × ℤ := (2026, 12)

/-- A volunteer with three approved sub-60 evaluations in the first
months of 2025: inside the calendar-year window of the source query, but
21 to 23 months before December 2026, far outside the trailing 12
months. -/
def dbWeakOld : Db :=
  ⟨[⟨1, "member", true⟩],
    [⟨11, 1, 1, 2025, 50, "approved", false⟩,
      ⟨12, 1, 2, 2025, 55, "approved", false⟩,
      ⟨13, 1, 3, 2025, 58, "approved", false⟩],
    [], [], []⟩

/-- Claim C5 counterexample: the source window is evaluation_year >=
current year - 1, not the trailing 12 months.  With CURRENT_DATE in
December 2026 and three approved sub-60 evaluations of early 2025, the
rule emits a weak_performance alert although the trailing-12-months count
of the claim is 0, so the stated if-and-only-if fails. -/
theorem weak_window_counterexample :
    (∃ a ∈ weakAlerts todayDec dbWeakOld [], a.volunteerId = 1) ∧
    specWeakCount todayDec dbWeakOld 1 = 0 ∧
    ¬ ((∃ a ∈ weakAlerts todayDec dbWeakOld [], a.volunteerId = 1) ↔
        (3 ≤ specWeakCount todayDec dbWeakOld 1 ∧
          hasUnresolved [] 1 ("weak_performance") = false)) := by
  decide

/-- Claim C5 amended: for an existing volunteer, the rule emits a
weak_performance alert if and only if the count of the approved
evaluations with percentage < 60 and evaluation_year >= current year - 1
is at least 3 and no unresolved weak_performance alert is open; every
emitted alert carries severity high and trigger_condition months = that
count, threshold = 60. -/
theorem weak_alert_characterisation (today : ℤ × ℤ) (db : Db) (alerts : List AlertRecord)
    (v : Nat) (hv : volunteerExists db v = true) :
    ((∃ a ∈ weakAlerts today db alerts, a.volunteerId = v) ↔
      (3 ≤ weakCount today db v ∧ hasUnresolved alerts v ("weak_performance") = false)) ∧
    (∀ a ∈ weakAlerts today db alerts, a.volunteerId = v →
      a.alertType = "weak_performance" ∧ a.severity = "high" ∧
      a.triggerMonths = weakCount today db v ∧ a.triggerThreshold = 60) := by
  constructor
  · constructor
    · rintro ⟨a, ha, hav⟩
      obtain ⟨v', hvr, hc, hk, hu, rfl⟩ := mem_emitFromRows.mp ha
      cases hav
      exact ⟨hc, hu⟩
    · rintro ⟨hc, hu⟩
      have hmem : v ∈ weakRows today db :=
        List.count_pos_iff.mp (lt_of_lt_of_le (by norm_num) hc)
      exact ⟨_, mem_emitFromRows.mpr ⟨v, hmem, hc, hv, hu, rfl⟩, rfl⟩
  · rintro a ha hav
    obtain ⟨v', hvr, hc, hk, hu, rfl⟩ := mem_emitFromRows.mp ha
    cases hav
    exact ⟨rfl, rfl, rfl, rfl⟩

/-- Claim C5 witness: the counterexample volunteer exists and the
characterisation applies to them. -/
theorem weak_alert_characterisation_witness :
    volunteerExists dbWeakOld 1 = true ∧
    (((∃ a ∈ weakAlerts todayDec dbWeakOld [], a.volunteerId = 1) ↔
        (3 ≤ weakCount todayDec dbWeakOld 1 ∧
          hasUnresolved [] 1 ("weak_performance") = false)) ∧
      (∀ a ∈ weakAlerts todayDec dbWeakOld [], a.volunteerId = 1 →
        a.alertType = "weak_performance" ∧ a.severity = "high" ∧
        a.triggerMonths = weakCount todayDec dbWeakOld 1 ∧ a.triggerThreshold = 60)) :=
  ⟨by decide, weak_alert_characterisation todayDec dbWeakOld [] 1 (by decide)⟩

/-- CURRENT_DATE of May 2026. -/
def todayMay : ℤ × ℤ := (2026, 5)

/-- A volunteer with two draft, frozen evaluations of early 2020 whose
details carry the score 10 on a criterion whose Arabic name contains the
interaction word. -/
def dbNiBug : Db :=
  ⟨[⟨1, "member", true⟩],
    [⟨10, 1, 1, 2020, 95, "draft", true⟩, ⟨11, 1, 2, 2020, 95, "draft", true⟩],
    [⟨10, 100, some 10⟩, ⟨11, 100, some 10⟩],
    [⟨100, "التفاعل", "numeric", 10, 1, "all", true, []⟩], []⟩

/-- Claim C6: the claim matches the intent the source states in its own
comment and alert message (no interaction for two months), but the SQL
WHERE clause of the source gives AND precedence over OR, so the
approved/non-frozen/recency/low-score filters bind only to the second
name pattern: two high-scoring details on draft, frozen, six-year-old
evaluations still trigger a no_interaction alert, although the count of
entries qualifying under the claim is 0. -/
theorem ni_rule_precedence_bug :
    niAlerts todayMay dbNiBug [] = [⟨1, "no_interaction", "medium", 2, 3, false⟩] ∧
    specNiCount todayMay dbNiBug 1 = 0 := by
  decide

/-- Claim C7: a second automatic check on an unchanged history inserts no
alert, and one check preserves the at-most-one-unresolved-alert-per-
(volunteer, type) invariant. -/
theorem check_automatic_idempotent (today : ℤ × ℤ) (db : Db) (alerts : List AlertRecord) :
    (checkAutomatic today db (checkAutomatic today db alerts).2).1 = [] ∧
    (AtMostOneUnresolved alerts → AtMostOneUnresolved (checkAutomatic today db alerts).2) := by
  have hwnil : weakAlerts today db (checkAutomatic today db alerts).2 = [] := by
    apply emit_nil_of_covered
    intro v hm hc hk
    have h1 := emit_covers (weakRows today db) 3 (volunteerExists db) alerts
      ("weak_performance") ("high") 60 v hm hc hk
    show hasUnresolved ((alerts ++ weakAlerts today db alerts) ++ _) v ("weak_performance") = true
    rw [hasUnresolved_append, Bool.or_eq_true]
    exact Or.inl h1
  constructor
  · show weakAlerts today db (checkAutomatic today db alerts).2 ++
      niAlerts today db ((checkAutomatic today db alerts).2 ++
        weakAlerts today db (checkAutomatic today db alerts).2) = []
    rw [hwnil, List.append_nil]
    have hnnil : niAlerts today db (checkAutomatic today db alerts).2 = [] := by
      apply emit_nil_of_covered
      intro v hm hc hk
      have h1 := emit_covers (niRows today db) 2 (fun _ => true)
        (alerts ++ weakAlerts today db alerts) ("no_interaction") ("medium") 3 v hm hc hk
      exact h1
    rw [hnnil]
    rfl
  · intro hinv v ty
    show unresolvedCount ((alerts ++ weakAlerts today db alerts) ++
      niAlerts today db (alerts ++ weakAlerts today db alerts)) v ty ≤ 1
    rw [unresolvedCount_append, unresolvedCount_append]
    set w := weakAlerts today db alerts with hw
    set n := niAlerts today db (alerts ++ w) with hn
    by_cases hW : 0 < unresolvedCount w v ty
    · obtain ⟨hty, hfu⟩ := uc_emit_pos _ _ _ _ _ _ _ _ _ hW
      subst hty
      have hA : unresolvedCount alerts v ("weak_performance") = 0 :=
        (hasUnresolved_eq_false_iff _ _ _).mp hfu
      have hN : unresolvedCount n v ("weak_performance") = 0 :=
        uc_emit_ne _ _ _ _ _ _ _ _ _ (by decide)
      have hWle : unresolvedCount w v ("weak_performance") ≤ 1 :=
        uc_emit_le_one (weakRows today db) 3 (volunteerExists db) alerts
          ("weak_performance") ("high") 60 v ("weak_performance")
      omega
    · by_cases hN : 0 < unresolvedCount n v ty
      · obtain ⟨hty, hfu⟩ := uc_emit_pos _ _ _ _ _ _ _ _ _ hN
        subst hty
        have hA1 : unresolvedCount (alerts ++ w) v ("no_interaction") = 0 :=
          (hasUnresolved_eq_false_iff _ _ _).mp hfu
        rw [unresolvedCount_append] at hA1
        have hNle : unresolvedCount n v ("no_interaction") ≤ 1 :=
          uc_emit_le_one (niRows today db) 2 (fun _ => true) (alerts ++ w)
            ("no_interaction") ("medium") 3 v ("no_interaction")
        omega
      · have hA := hinv v ty
        omega

/-- Claim C7 witness: the invariant holds for the empty alert table, and
running the check twice over the counterexample history inserts nothing
the second time while keeping the invariant. -/
theorem check_automatic_idempotent_witness :
    (checkAutomatic todayDec dbWeakOld (checkAutomatic todayDec dbWeakOld []).2).1 = [] ∧
    AtMostOneUnresolved (checkAutomatic todayDec dbWeakOld []).2 :=
  ⟨(check_automatic_idempotent todayDec dbWeakOld []).1,
    (check_automatic_idempotent todayDec dbWeakOld []).2
      (fun v ty => by simp [unresolvedCount])⟩

/-- The body of POST /api/evaluations after express-validator has
accepted the field shapes (UUID, month range, array-ness are upstream
plumbing). -/
structure CreateRequest where
  volunteerId : Nat
  month : ℤ
  year : ℤ
  criteriaScores : List CriteriaScore
  isFrozen : Bool
  freezeReason : Option String
  freezeStartDate : Option String
  freezeEndDate : Option String
  deriving DecidableEq

/-- Outcome of the create handler: the HTTP error classes it can return,
or the created evaluation row together with whether a freeze record was
inserted. -/
inductive CreateResult where
  | notFound (code : String)
  | conflict (code : String)
  | validationFailed (code : String)
  | created (row : EvalRow) (freezeInserted : Bool)
  deriving DecidableEq

/-- SELECT COUNT(*) FROM freeze_records WHERE volunteer_id = v AND
freeze_year = y AND is_active = true. -/
def freezeCount (db : Db) (v : Nat) (y : ℤ) : Nat :=
  (db.freezeRecords.filter
    (fun f => decide (f.volunteerId = v ∧ f.freezeYear = y ∧ f.isActive = true))).length

/-- The create handler POST /api/evaluations (src/evaluations.js lines
226-438) in source order: active-volunteer lookup (404), duplicate
(volunteer, month, year) check (409 EVALUATION_EXISTS), and when is_frozen:
all three freeze fields truthy (else 400 INCOMPLETE_FREEZE_DATA) and the
annual cap freezeCount < 2 (else 409 FREEZE_LIMIT_EXCEEDED); then one
transaction inserts the evaluation with status draft, the details (the
stored score_value is finalScore || null, so a zero score is stored as
NULL) and, when is_frozen, one freeze record for (volunteer_id,
evaluation_year); the freeze_records insert leaves is_active at its
schema default true. -/
def postEvaluation (db : Db) (req : CreateRequest) (newId : Nat) : CreateResult × Db :=
  match db.volunteers.find? (fun w => decide (w.id = req.volunteerId ∧ w.isActive = true)) with
  | none => (CreateResult.notFound ("VOLUNTEER_NOT_FOUND"), db)
  | some vol =>
    if db.evaluations.any (fun e =>
        decide (e.volunteerId = req.volunteerId ∧ e.month = req.month ∧ e.year = req.year)) then
      (CreateResult.conflict ("EVALUATION_EXISTS"), db)
    else if req.isFrozen &&
        !(strTruthy req.freezeReason && strTruthy req.freezeStartDate &&
          strTruthy req.freezeEndDate) then
      (CreateResult.validationFailed ("INCOMPLETE_FREEZE_DATA"), db)
    else if req.isFrozen && decide (2 ≤ freezeCount db req.volunteerId req.year) then
      (CreateResult.conflict ("FREEZE_LIMIT_EXCEEDED"), db)
    else
      (CreateResult.created (aggregateEvaluation db.criteria vol.roleType req.criteriaScores)
          req.isFrozen,
        { db with
          evaluations := db.evaluations ++
            [⟨newId, req.volunteerId, req.month, req.year,
              (aggregateEvaluation db.criteria vol.roleType req.criteriaScores).percentage,
              "draft", req.isFrozen⟩]
          details := db.details ++
            (aggregateEvaluation db.criteria vol.roleType req.criteriaScores).details.map
              (fun d => ⟨newId, d.1, if d.2 = 0 then none else some d.2⟩)
          freezeRecords := db.freezeRecords ++
            (if req.isFrozen then [⟨req.volunteerId, req.year, true⟩] else []) })

/-- Claim C8: for a frozen-evaluation request by an existing active
volunteer with no duplicate evaluation and all freeze fields present, a
prior count of at least 2 active freeze records for that year yields the
FREEZE_LIMIT_EXCEEDED conflict with the store untouched, and a count
below 2 yields a created evaluation plus exactly one inserted freeze
record. -/
theorem freeze_cap_enforced (db : Db) (req : CreateRequest) (newId : Nat)
    (hv : (db.volunteers.find?
      (fun w => decide (w.id = req.volunteerId ∧ w.isActive = true))).isSome = true)
    (hnd : db.evaluations.any (fun e =>
      decide (e.volunteerId = req.volunteerId ∧ e.month = req.month ∧
        e.year = req.year)) = false)
    (hf : req.isFrozen = true)
    (hfr : strTruthy req.freezeReason = true)
    (hfs : strTruthy req.freezeStartDate = true)
    (hfe : strTruthy req.freezeEndDate = true) :
    (2 ≤ freezeCount db req.volunteerId req.year →
      postEvaluation db req newId = (CreateResult.conflict ("FREEZE_LIMIT_EXCEEDED"), db)) ∧
    (freezeCount db req.volunteerId req.year < 2 →
      (∃ row, (postEvaluation db req newId).1 = CreateResult.created row true) ∧
      (postEvaluation db req newId).2.freezeRecords =
        db.freezeRecords ++ [⟨req.volunteerId, req.year, true⟩]) := by
  obtain ⟨vol, hvol⟩ := Option.isSome_iff_exists.mp hv
  constructor
  · intro hcap
    simp only [postEvaluation, hvol, hnd, hf, hfr, hfs, hfe]
    simp [hcap]
  · intro hlt
    have hcap : ¬ (2 ≤ freezeCount db req.volunteerId req.year) := by omega
    refine ⟨⟨aggregateEvaluation db.criteria vol.roleType req.criteriaScores, ?_⟩, ?_⟩ <;>
      · simp only [postEvaluation, hvol, hnd, hf, hfr, hfs, hfe]
        simp [hcap, hf]

/-- A volunteer who already holds two active freeze records for 2025. -/
def dbTwoFreezes : Db := ⟨[⟨1, "member", true⟩], [], [], [], [⟨1, 2025, true⟩, ⟨1, 2025, true⟩]⟩

/-- The same volunteer with no freeze record yet. -/
def dbNoFreezes : Db := ⟨[⟨1, "member", true⟩], [], [], [], []⟩

/-- A frozen-evaluation request for May 2025 with all freeze fields. -/
def reqFrozen : CreateRequest := ⟨1, 5, 2025, [], true, some "r", some "s", some "e"⟩

/-- Claim C8 witness: the third freeze attempt of a year is rejected and
leaves the store unchanged; with fewer than 2 records the evaluation is
created and the freeze record inserted. -/
theorem freeze_cap_enforced_witness :
    (2 ≤ freezeCount dbTwoFreezes 1 2025 ∧
      postEvaluation dbTwoFreezes reqFrozen 7 =
        (CreateResult.conflict ("FREEZE_LIMIT_EXCEEDED"), dbTwoFreezes)) ∧
    (freezeCount dbNoFreezes 1 2025 < 2 ∧
      (∃ row, (postEvaluation dbNoFreezes reqFrozen 7).1 = CreateResult.created row true) ∧
      (postEvaluation dbNoFreezes reqFrozen 7).2.freezeRecords =
        dbNoFreezes.freezeRecords ++ [⟨1, 2025, true⟩]) :=
  ⟨⟨by decide,
      (freeze_cap_enforced dbTwoFreezes reqFrozen 7 (by decide) (by decide) rfl
        (by decide) (by decide) (by decide)).1 (by decide)⟩,
    ⟨by decide,
      (freeze_cap_enforced dbNoFreezes reqFrozen 7 (by decide) (by decide) rfl
        (by decide) (by decide) (by decide)).2 (by decide)⟩⟩

/-- scores.reduce of the sum divided by scores.length. -/
def meanQ (l : List ℚ) : ℚ := l.sum / l.length

/-- The population variance computed by calculateConsistency: the mean of
the squared deviations from the mean. -/
def varianceQ (l : List ℚ) : ℚ := ((l.map (fun s => (s - meanQ l) ^ 2)).sum) / l.length

/-- calculateConsistency from the reports module: if fewer than 2 scores
the function returns 0, otherwise max(0, 100 - sqrt(variance)).  The
square root is the real square root (Math.sqrt), so the function is
rendered as the graph relation between the score list and the returned
value. -/
def calculateConsistency (l : List ℚ) (c : ℝ) : Prop :=
  if l.length < 2 then c = 0
  else c = max 0 ((100 : ℝ) - Real.sqrt ((varianceQ l : ℚ) : ℝ))

/-- The consistency formula as the spec words it, with no length guard:
consistency(scores) = max(0, 100 - stddev(scores)), stddev being the
population standard deviation. -/
def consistencySpec (l : List ℚ) (c : ℝ) : Prop :=
  c = max 0 ((100 : ℝ) - Real.sqrt ((varianceQ l : ℚ) : ℝ))

/-- Claim C10 counterexample: on the singleton list [50] the source
returns 0 (its guard fires below 2 scores), while the claimed formula
max(0, 100 - stddev) gives 100 because the population standard deviation
of a singleton is 0. -/
theorem consistency_short_list_counterexample :
    calculateConsistency [50] 0 ∧ ¬ consistencySpec [50] 0 := by
  constructor
  · simp [calculateConsistency]
  · intro h
    rw [consistencySpec] at h
    have hv : varianceQ [50] = 0 := by norm_num [varianceQ, meanQ]
    rw [hv] at h
    simp [Real.sqrt_zero] at h

/-- Claim C10 amended: for every list of at least 2 scores the consistency
rating equals max(0, 100 - stddev(scores)) with the population standard
deviation; lists of fewer than 2 scores get the rating 0 instead. -/
theorem consistency_formula_for_two_plus (l : List ℚ) (c : ℝ) (h : 2 ≤ l.length) :
    calculateConsistency l c ↔ consistencySpec l c := by
  rw [calculateConsistency, consistencySpec, if_neg (by omega)]

/-- Claim C10 witness: the formula applies to a 2-element list. -/
theorem consistency_formula_witness :
    2 ≤ ([30, 50] : List ℚ).length ∧
    (calculateConsistency [30, 50] 0 ↔ consistencySpec [30, 50] 0) :=
  ⟨by decide, consistency_formula_for_two_plus [30, 50] 0 (by decide)⟩

end Zad
